import Mathlib

/-!
# Verification of the Primo Sales Tracker Slack webhook logic

Shallow embedding of the Slack-facing parts of `app.py` (version `V0.9`):
the signature verifier `slack_verify_request`, the processed-event
bookkeeping (`slack_event_already_processed`, `mark_slack_event_processed`),
the delete-protection routine `remove_sale_from_slack`, the CRUD helpers
`add_entry_manual` / `delete_entry`, and the `/slack/events` endpoint
`slack_events`.

Bytes are modelled as `Nat` (values < 256), machine words as `Nat` reduced
modulo `2 ^ 32`, strings as Lean `String`, and the Postgres tables as lists
of rows inside an explicit `DBState` that the operations thread through.
-/

/-! ## Bytes, words and SHA-256 (model of Python `hashlib.sha256`) -/

/-- Truncate a natural number to a 32-bit word, as Python's
`& 0xffffffff` discipline inside SHA-256 does. -/
def w32 (n : Nat) : Nat := n % 4294967296

/-- Right rotation of a 32-bit word by `n` bits. -/
def rotr32 (n x : Nat) : Nat := w32 ((x >>> n) ||| (x <<< (32 - n)))

/-- SHA-256 small sigma 0: `rotr 7 ^ rotr 18 ^ shr 3`. -/
def smallSigma0 (x : Nat) : Nat := (rotr32 7 x) ^^^ (rotr32 18 x) ^^^ (x >>> 3)

/-- SHA-256 small sigma 1: `rotr 17 ^ rotr 19 ^ shr 10`. -/
def smallSigma1 (x : Nat) : Nat := (rotr32 17 x) ^^^ (rotr32 19 x) ^^^ (x >>> 10)

/-- SHA-256 big Sigma 0: `rotr 2 ^ rotr 13 ^ rotr 22`. -/
def bigSigma0 (x : Nat) : Nat := (rotr32 2 x) ^^^ (rotr32 13 x) ^^^ (rotr32 22 x)

/-- SHA-256 big Sigma 1: `rotr 6 ^ rotr 11 ^ rotr 25`. -/
def bigSigma1 (x : Nat) : Nat := (rotr32 6 x) ^^^ (rotr32 11 x) ^^^ (rotr32 25 x)

/-- The 64 SHA-256 round constants. -/
def sha256K : List Nat :=
  [1116352408, 1899447441, 3049323471, 3921009573, 961987163, 1508970993,
   2453635748, 2870763221, 3624381080, 310598401, 607225278, 1426881987,
   1925078388, 2162078206, 2614888103, 3248222580, 3835390401, 4022224774,
   264347078, 604807628, 770255983, 1249150122, 1555081692, 1996064986,
   2554220882, 2821834349, 2952996808, 3210313671, 3336571891, 3584528711,
   113926993, 338241895, 666307205, 773529912, 1294757372, 1396182291,
   1695183700, 1986661051, 2177026350, 2456956037, 2730485921, 2820302411,
   3259730800, 3345764771, 3516065817, 3600352804, 4094571909, 275423344,
   430227734, 506948616, 659060556, 883997877, 958139571, 1322822218,
   1537002063, 1747873779, 1955562222, 2024104815, 2227730452, 2361852424,
   2428436474, 2756734187, 3204031479, 3329325298]

/-- The SHA-256 initial hash value, eight 32-bit words. -/
def sha256H0 : List Nat :=
  [1779033703, 3144134277, 1013904242, 2773480762,
   1359893119, 2600822924, 528734635, 1541459225]

/-- Pack a byte list into big-endian 32-bit words, four bytes per word. -/
def bytesToWordsBE : List Nat → List Nat
  | a :: b :: c :: d :: rest => (a * 16777216 + b * 65536 + c * 256 + d) :: bytesToWordsBE rest
  | _ => []

/-- Extend a 16-word message schedule by `n` further words using the SHA-256
recurrence `w[t] = s1(w[t-2]) + w[t-7] + s0(w[t-15]) + w[t-16]`. -/
def extendSchedule (w : List Nat) : Nat → List Nat
  | 0 => w
  | k + 1 =>
    let w := extendSchedule w k
    let t := w.length
    w ++ [w32 (smallSigma1 (w.getD (t - 2) 0) + w.getD (t - 7) 0 +
               smallSigma0 (w.getD (t - 15) 0) + w.getD (t - 16) 0)]

/-- One SHA-256 compression round: the state is the eight working variables
`[a,b,c,d,e,f,g,h]`, and the argument pairs a round constant with a
schedule word. -/
def compressStep (st : List Nat) (kw : Nat × Nat) : List Nat :=
  match st with
  | [a, b, c, d, e, f, g, h] =>
    let ch := (e &&& f) ^^^ ((e ^^^ 4294967295) &&& g)
    let maj := (a &&& b) ^^^ (a &&& c) ^^^ (b &&& c)
    let t1 := w32 (h + bigSigma1 e + ch + kw.1 + kw.2)
    let t2 := w32 (bigSigma0 a + maj)
    [w32 (t1 + t2), a, b, c, w32 (d + t1), e, f, g]
  | other => other

/-- Process one 64-byte chunk: run the 64 compression rounds over the
extended schedule and add the result into the running hash. -/
def sha256Chunk (h : List Nat) (chunk : List Nat) : List Nat :=
  let sched := extendSchedule (bytesToWordsBE chunk) 48
  let final := (sha256K.zip sched).foldl compressStep h
  (h.zip final).map fun p => w32 (p.1 + p.2)

/-- Split a byte list into 64-byte chunks. -/
def chunks64 : List Nat → List (List Nat)
  | [] => []
  | x :: xs => (x :: xs).take 64 :: chunks64 (xs.drop 63)
  termination_by l => l.length
  decreasing_by simp [List.length_drop]; omega

/-- The eight big-endian bytes of the 64-bit message bit length. -/
def lengthBytesBE (n : Nat) : List Nat :=
  [(n >>> 56) % 256, (n >>> 48) % 256, (n >>> 40) % 256, (n >>> 32) % 256,
   (n >>> 24) % 256, (n >>> 16) % 256, (n >>> 8) % 256, n % 256]

/-- SHA-256 padding: append `0x80`, zero bytes up to 56 mod 64, then the
bit length as eight big-endian bytes. -/
def sha256pad (msg : List Nat) : List Nat :=
  msg ++ [0x80] ++ List.replicate ((119 - msg.length % 64) % 64) 0 ++
    lengthBytesBE (msg.length * 8)

/-- The four big-endian bytes of one 32-bit word. -/
def wordBytesBE (x : Nat) : List Nat :=
  [(x >>> 24) % 256, (x >>> 16) % 256, (x >>> 8) % 256, x % 256]

/-- SHA-256 of a byte list, as a 32-byte digest
(model of Python `hashlib.sha256(data).digest()`). -/
def sha256 (msg : List Nat) : List Nat :=
  (((chunks64 (sha256pad msg)).foldl sha256Chunk sha256H0).map wordBytesBE).flatten

/-- HMAC-SHA256 with block size 64
(model of Python `hmac.new(key, msg, hashlib.sha256).digest()`). -/
def hmacSha256 (key msg : List Nat) : List Nat :=
  let k0 := if key.length > 64 then sha256 key else key
  let k := k0 ++ List.replicate (64 - k0.length) 0
  let ipad := k.map fun b => b ^^^ 0x36
  let opad := k.map fun b => b ^^^ 0x5c
  sha256 (opad ++ sha256 (ipad ++ msg))

/-- Lowercase hexadecimal digit for a value below 16. -/
def hexDigit (n : Nat) : Char := if n < 10 then Char.ofNat (48 + n) else Char.ofNat (87 + n)

/-- Lowercase hex encoding of a byte list
(model of Python's `.hexdigest()` output format). -/
def hexEncode (bs : List Nat) : String :=
  String.mk ((bs.map fun b => [hexDigit (b / 16 % 16), hexDigit (b % 16)]).flatten)

/-- UTF-8 encoding of one character (standard 1-4 byte encoding). -/
def utf8Char (c : Char) : List Nat :=
  let n := c.toNat
  if n < 0x80 then [n]
  else if n < 0x800 then [0xC0 ||| (n >>> 6), 0x80 ||| (n &&& 0x3F)]
  else if n < 0x10000 then
    [0xE0 ||| (n >>> 12), 0x80 ||| ((n >>> 6) &&& 0x3F), 0x80 ||| (n &&& 0x3F)]
  else
    [0xF0 ||| (n >>> 18), 0x80 ||| ((n >>> 12) &&& 0x3F),
     0x80 ||| ((n >>> 6) &&& 0x3F), 0x80 ||| (n &&& 0x3F)]

/-- UTF-8 encoding of a string (model of Python `str.encode("utf-8")`). -/
def utf8 (s : String) : List Nat := (s.data.map utf8Char).flatten

/-! ## Python string helpers used by `app.py` -/

/-- Model of Python `str.strip()`: drop whitespace from both ends.
(Python also strips some other Unicode whitespace; the identifiers and
timestamps handled here are ASCII, where the two agree.) -/
def pyStrip (s : String) : String :=
  String.mk (((s.data.dropWhile Char.isWhitespace).reverse.dropWhile Char.isWhitespace).reverse)

/-- Value of a nonempty all-digit character list, `none` otherwise. -/
def digitsVal (cs : List Char) : Option Nat :=
  if cs = [] then none
  else if cs.all fun c => c.isDigit then
    some (cs.foldl (fun a c => a * 10 + (c.toNat - 48)) 0)
  else none

/-- Model of Python `int(s)` on a decimal string: strip whitespace, allow one
optional sign, then require at least one digit; raising `ValueError` is
modelled as `none`. -/
def parsePyInt (s : String) : Option Int :=
  match (pyStrip s).data with
  | '-' :: rest => (digitsVal rest).map fun n => -(n : Int)
  | '+' :: rest => (digitsVal rest).map fun n => (n : Int)
  | cs => (digitsVal cs).map fun n => (n : Int)

example : parsePyInt "100" = some 100 := by decide
example : parsePyInt " -42 " = some (-42) := by decide
example : parsePyInt "" = none := by decide
example : parsePyInt "100.1" = none := by decide

/-! ## Configuration and database model -/

/-- The Slack-related environment configuration read at the top of `app.py`
(each value is already `.strip()`-ed by the loading code). -/
structure SlackConfig where
  SLACK_SIGNING_SECRET : String := ""
  SLACK_CHANNEL_ID : String := ""
  SLACK_TRISTAN_ID : String := ""
  SLACK_RICKY_ID : String := ""
  SLACK_SOHAIB_ID : String := ""
deriving Repr, DecidableEq

/-- The `SLACK_USER_TO_REP` mapping built in `app.py` lines 71-76: the three
environment ids mapped to fixed rep names, entries with an empty id removed.
The surrounding comment notes it "isn't used to create sales anymore". -/
def SLACK_USER_TO_REP (cfg : SlackConfig) : List (String × String) :=
  [(cfg.SLACK_TRISTAN_ID, "Tristan"), (cfg.SLACK_RICKY_ID, "Ricky"),
   (cfg.SLACK_SOHAIB_ID, "Sohaib")].filter fun p => decide (p.1 ≠ "")

/-- A row of the `sales_entries` table (the spec's BusinessRecord). The
`lat`/`lon`/`accuracy_m` columns are always NULL in the insert paths modelled
here and are omitted. -/
structure SalesEntry where
  id : Nat
  week_start : String
  rep : String
  qty : Int
  created_at : String
  note : String
  store_id : Option Nat
  slack_channel : Option String
  slack_ts : Option String
deriving Repr, DecidableEq

/-- A row of the `slack_message_sales` table (the spec's MessageToRecordLink);
primary key `(channel_id, message_ts)`. -/
structure SlackMessageSale where
  channel_id : String
  message_ts : String
  entry_id : Nat
  rep : String
  qty : Int
deriving Repr, DecidableEq

/-- A row of the `reps` table, restricted to the columns `add_entry_manual`
reads. -/
structure RepRow where
  username : String
  active : Bool
deriving Repr, DecidableEq

/-- A row of the `stores` table, restricted to the columns `add_entry_manual`
reads. -/
structure StoreRow where
  id : Nat
  name : String
deriving Repr, DecidableEq

/-- The Postgres state as seen by the functions under verification: the
`sales_entries`, `slack_message_sales` and `slack_processed_events` tables
(the latter as its list of `event_id` keys), the `reps` and `stores` tables,
and the `BIGSERIAL` counter feeding `sales_entries.id`. -/
structure DBState where
  sales_entries : List SalesEntry := []
  slack_message_sales : List SlackMessageSale := []
  slack_processed_events : List String := []
  reps : List RepRow := []
  stores : List StoreRow := []
  next_entry_id : Nat := 1
deriving Repr, DecidableEq

/-! ## The functions of `app.py` under verification -/

/-- `slack_verify_request` (app.py lines 741-765). Inputs are the two Slack
headers, the raw request body, and the current wall-clock time (the one
`time.time()` read, modelled as whole seconds). `hmac.compare_digest` on two
strings decides exactly their equality. -/
def slack_verify_request (cfg : SlackConfig) (ts sig body : String) (now : Int) : Bool :=
  if cfg.SLACK_SIGNING_SECRET = "" then false
  else if ts = "" ∨ sig = "" then false
  else
    match parsePyInt ts with
    | none => false
    | some ts_int =>
      if (now - ts_int).natAbs > 60 * 5 then false
      else decide (sig = "v0=" ++ hexEncode (hmacSha256 (utf8 cfg.SLACK_SIGNING_SECRET)
        (utf8 ("v0:" ++ ts ++ ":" ++ body))))

/-- The signature string `slack_verify_request` computes for itself:
`"v0=" + HMAC-SHA256(secret, "v0:" + timestamp + ":" + body).hexdigest()`. -/
def expected_slack_signature (secret ts body : String) : String :=
  "v0=" ++ hexEncode (hmacSha256 (utf8 secret) (utf8 ("v0:" ++ ts ++ ":" ++ body)))

/-- `slack_event_already_processed` (app.py lines 768-774): an empty id is
never looked up; otherwise membership in `slack_processed_events`. -/
def slack_event_already_processed (st : DBState) (event_id : String) : Bool :=
  if event_id = "" then false
  else decide (event_id ∈ st.slack_processed_events)

/-- `mark_slack_event_processed` (app.py lines 777-786): an empty id inserts
nothing; otherwise `INSERT ... ON CONFLICT DO NOTHING` against the
`event_id` primary key, i.e. append the id exactly when it is absent. -/
def mark_slack_event_processed (st : DBState) (event_id : String) : DBState :=
  if event_id = "" then st
  else if event_id ∈ st.slack_processed_events then st
  else { st with slack_processed_events := st.slack_processed_events ++ [event_id] }

/-- `remove_sale_from_slack` (app.py lines 720-738): look up the
`slack_message_sales` row keyed by `(channel_id, message_ts)`; if absent
return `False` with no change; if present delete the `sales_entries` row
with the linked `entry_id` and the link row, in one transaction. -/
def remove_sale_from_slack (st : DBState) (channel_id message_ts : String) : Bool × DBState :=
  match st.slack_message_sales.find? (fun r =>
      decide (r.channel_id = channel_id ∧ r.message_ts = message_ts)) with
  | none => (false, st)
  | some row =>
    (true,
     { st with
       sales_entries := st.sales_entries.filter fun e => decide (e.id ≠ row.entry_id),
       slack_message_sales := st.slack_message_sales.filter fun r =>
         decide (¬ (r.channel_id = channel_id ∧ r.message_ts = message_ts)) })

/-- `delete_entry` (app.py lines 684-688): `DELETE FROM sales_entries WHERE
id = entry_id` and nothing else — in particular `slack_message_sales` is not
touched. -/
def delete_entry (st : DBState) (entry_id : Nat) : DBState :=
  { st with sales_entries := st.sales_entries.filter fun e => decide (e.id ≠ entry_id) }

/-- The active rep usernames (`list_reps(active_only=True)` as used by
`add_entry_manual`). -/
def active_rep_names (st : DBState) : List String :=
  (st.reps.filter fun r => r.active).map fun r => r.username

/-- The insert-and-link tail of `add_entry_manual`: insert the new
`sales_entries` row (committed on its own), then — when `slack_post_sale`
returned a channel and ts — update the row's slack columns and insert the
`slack_message_sales` link with `ON CONFLICT DO NOTHING` in a second
transaction. `slack_outcome` is the value returned by the outbound
`slack_post_sale` network call: `none` models `(None, None)`. -/
def add_entry_insert (st : DBState) (week_start rep : String) (qty : Int)
    (store_id : Option Nat) (store_name today : String)
    (slack_outcome : Option (String × String)) : DBState × Nat × Bool :=
  let entry_id := st.next_entry_id
  let entry : SalesEntry :=
    { id := entry_id, week_start := week_start, rep := rep, qty := qty,
      created_at := today, note := store_name, store_id := store_id,
      slack_channel := none, slack_ts := none }
  let st1 : DBState :=
    { st with sales_entries := st.sales_entries ++ [entry], next_entry_id := entry_id + 1 }
  match slack_outcome with
  | none => (st1, entry_id, false)
  | some (ch, ts) =>
    let st2 : DBState :=
      { st1 with
        sales_entries := st1.sales_entries.map fun e =>
          if e.id = entry_id then { e with slack_channel := some ch, slack_ts := some ts }
          else e }
    let link : SlackMessageSale :=
      { channel_id := ch, message_ts := ts, entry_id := entry_id, rep := rep, qty := qty }
    let st3 : DBState :=
      if st2.slack_message_sales.any fun r =>
          decide (r.channel_id = ch ∧ r.message_ts = ts) then st2
      else { st2 with slack_message_sales := st2.slack_message_sales ++ [link] }
    (st3, entry_id, true)

/-- `add_entry_manual` (app.py lines 625-681). `admin` is the `is_admin()`
session flag, `today` the `local_today()` date, and `slack_outcome` the
result of the `slack_post_sale` call (a channel/ts pair when the post
succeeded with truthy values). `ValueError` is modelled as `Except.error`
with the raised message. -/
def add_entry_manual (st : DBState) (admin : Bool) (week_start rep : String)
    (qty : Int) (store_id : Option Nat) (today : String)
    (slack_outcome : Option (String × String)) : Except String (DBState × Nat × Bool) :=
  if qty ≤ 0 then .error "qty must be positive"
  else
    let rep := pyStrip rep
    if rep = "" then .error "rep required"
    else if rep ∉ active_rep_names st ∧ ¬ admin then .error "invalid rep"
    else
      match store_id with
      | some sid =>
        match st.stores.find? (fun s => decide (s.id = sid)) with
        | none => .error "invalid store"
        | some s => .ok (add_entry_insert st week_start rep qty (some sid) s.name today slack_outcome)
      | none => .ok (add_entry_insert st week_start rep qty none "" today slack_outcome)

/-! ## The `/slack/events` endpoint -/

/-- The inner `event` object of a Slack event callback, restricted to the
keys `slack_events` reads (`user`, `text` and `ts` are carried along but the
handler never reads them). A missing key is its default (`""` / `none`),
matching `event.get(...)`. -/
structure SlackEvent where
  channel : String := ""
  subtype : Option String := none
  user : String := ""
  text : String := ""
  ts : String := ""
  deleted_ts : String := ""
  previous_message_ts : String := ""
deriving Repr, DecidableEq, Inhabited

/-- The parsed JSON payload of a request to `/slack/events`, restricted to
the keys the handler reads; a missing key is its default, matching
`payload.get(...)` with `or {}` for the event. -/
structure SlackPayload where
  type : String := ""
  challenge : String := ""
  event_id : String := ""
  event : SlackEvent := {}
deriving Repr, DecidableEq, Inhabited

/-- The message timestamp a `message_deleted` event refers to: `deleted_ts`,
falling back to `previous_message.ts`, both stripped (app.py lines 2075-2078). -/
def resolved_deleted_ts (ev : SlackEvent) : String :=
  if pyStrip ev.deleted_ts = "" then pyStrip ev.previous_message_ts else pyStrip ev.deleted_ts

/-- An inbound HTTP request to `/slack/events`: the two Slack headers, the
raw body (the bytes the signature is computed over), and the result of
`request.get_json(silent=True)` (`none` when the body is not JSON). -/
structure SlackRequest where
  timestamp_header : String := ""
  signature_header : String := ""
  body : String := ""
  payload : Option SlackPayload := none
deriving Repr, DecidableEq, Inhabited

/-- An HTTP response: status code and body (for the `url_verification`
branch the body stands for the JSON `{"challenge": ...}` echo). -/
structure HttpResponse where
  status : Nat
  body : String
deriving Repr, DecidableEq

/-- `slack_events` (app.py lines 2036-2087), the `POST /slack/events`
handler: echo the `url_verification` handshake; reject on failed signature;
short-circuit on an already-processed `event_id`; ignore events from other
channels than the configured one and `message_changed` events; on
`message_deleted` remove the linked sale; mark the event processed in every
handled branch. (`init_db` bookkeeping is schema setup and is not part of
the state model.) -/
def slack_events (cfg : SlackConfig) (st : DBState) (now : Int) (req : SlackRequest) :
    HttpResponse × DBState :=
  let payload := req.payload.getD {}
  if payload.type = "url_verification" then
    ({ status := 200, body := payload.challenge }, st)
  else if ¬ slack_verify_request cfg req.timestamp_header req.signature_header req.body now then
    ({ status := 403, body := "invalid signature" }, st)
  else
    let event_id := payload.event_id
    if slack_event_already_processed st event_id then
      ({ status := 200, body := "ok" }, st)
    else
      let event := payload.event
      let channel_id := pyStrip event.channel
      if cfg.SLACK_CHANNEL_ID ≠ "" ∧ channel_id ≠ cfg.SLACK_CHANNEL_ID then
        ({ status := 200, body := "ok" }, mark_slack_event_processed st event_id)
      else if event.subtype = some "message_changed" then
        ({ status := 200, body := "ok" }, mark_slack_event_processed st event_id)
      else if event.subtype = some "message_deleted" then
        let deleted_ts := resolved_deleted_ts event
        let st2 := if deleted_ts = "" then st
                   else (remove_sale_from_slack st channel_id deleted_ts).2
        ({ status := 200, body := "ok" }, mark_slack_event_processed st2 event_id)
      else
        ({ status := 200, body := "ok" }, mark_slack_event_processed st event_id)

/-- The state after one delivery of `req` to `/slack/events`. -/
def slack_events_state (cfg : SlackConfig) (st : DBState) (now : Int) (req : SlackRequest) :
    DBState :=
  (slack_events cfg st now req).2

/-- The state after `n` consecutive deliveries of the same request. -/
def deliverN (cfg : SlackConfig) (now : Int) (req : SlackRequest) : Nat → DBState → DBState
  | 0, st => st
  | n + 1, st => deliverN cfg now req n (slack_events_state cfg st now req)

/-! ## Concrete instances used by witnesses and counterexamples

The raw `body` of each concrete request below is an opaque stand-in for the
JSON bytes; its parsed form is the request's `payload` field (JSON parsing
itself is not modelled). Signatures are written via
`expected_slack_signature`, exactly the string §4.1 computes. -/

/-- Concrete configuration: secret `"abc"`, watched channel `"C1"`,
Tristan's Slack id `"U1"` (so `"U1"` is on the allow-list mapping). -/
def cfgW : SlackConfig :=
  { SLACK_SIGNING_SECRET := "abc", SLACK_CHANNEL_ID := "C1", SLACK_TRISTAN_ID := "U1" }

/-- Raw body bytes of the concrete event deliveries. -/
def bodyW : String := "slack-event-body"

/-- The correct signature for `bodyW` at timestamp `"100"` under `cfgW`. -/
def sigW : String := expected_slack_signature "abc" "100" bodyW

/-- A top-level message post in the watched channel by the allow-listed
user `U1` containing the keyword text. -/
def evPost : SlackEvent :=
  { channel := "C1", user := "U1", text := "sold water", ts := "100.1" }

/-- Authenticated delivery of the `evPost` message event, event id `E1`. -/
def reqPost : SlackRequest :=
  { timestamp_header := "100", signature_header := sigW, body := bodyW,
    payload := some { type := "event_callback", event_id := "E1", event := evPost } }

/-- A `message_deleted` event for message `100.1` in the watched channel. -/
def evDel : SlackEvent :=
  { channel := "C1", subtype := some "message_deleted", deleted_ts := "100.1" }

/-- Authenticated delivery of the `evDel` deletion event, event id `E2`. -/
def reqDel : SlackRequest :=
  { timestamp_header := "100", signature_header := sigW, body := bodyW,
    payload := some { type := "event_callback", event_id := "E2", event := evDel } }

/-- A message event in channel `C2`, different from the watched `C1`. -/
def evOther : SlackEvent :=
  { channel := "C2", user := "U1", text := "sold water", ts := "300.3" }

/-- Authenticated delivery of the `evOther` event, event id `E3`. -/
def reqOther : SlackRequest :=
  { timestamp_header := "100", signature_header := sigW, body := bodyW,
    payload := some { type := "event_callback", event_id := "E3", event := evOther } }

/-- A `url_verification` handshake request whose signature data is invalid
(timestamp `0` is far outside the freshness window at `now = 1000`). -/
def reqHandshake : SlackRequest :=
  { timestamp_header := "0", signature_header := "zzz", body := bodyW,
    payload := some { type := "url_verification", challenge := "chal-123" } }

/-- An event callback whose signature data is invalid (stale timestamp). -/
def reqBadSig : SlackRequest :=
  { timestamp_header := "0", signature_header := "zzz", body := bodyW,
    payload := some { type := "event_callback", event_id := "E4", event := evPost } }

/-- Sales entry 1, linked to Slack message `("C1", "100.1")`. -/
def entry1 : SalesEntry :=
  { id := 1, week_start := "2025-01-06", rep := "Tristan", qty := 1,
    created_at := "2025-01-07", note := "", store_id := none,
    slack_channel := some "C1", slack_ts := some "100.1" }

/-- Sales entry 2, linked to Slack message `("C1", "200.2")`. -/
def entry2 : SalesEntry :=
  { id := 2, week_start := "2025-01-06", rep := "Ricky", qty := 3,
    created_at := "2025-01-07", note := "", store_id := none,
    slack_channel := some "C1", slack_ts := some "200.2" }

/-- Link row mapping `("C1", "100.1")` to entry 1. -/
def link1 : SlackMessageSale :=
  { channel_id := "C1", message_ts := "100.1", entry_id := 1, rep := "Tristan", qty := 1 }

/-- Link row mapping `("C1", "200.2")` to entry 2. -/
def link2 : SlackMessageSale :=
  { channel_id := "C1", message_ts := "200.2", entry_id := 2, rep := "Ricky", qty := 3 }

/-- A database holding the two linked sales entries. -/
def stTwo : DBState :=
  { sales_entries := [entry1, entry2], slack_message_sales := [link1, link2],
    next_entry_id := 3 }

/-! ## Helper lemmas -/

lemma countP_not_add_countP {α : Type} (l : List α) (p : α → Bool) :
    l.countP (fun a => !p a) + l.countP p = l.length := by
  induction l with
  | nil => simp
  | cons x xs ih =>
    by_cases h : p x = true <;> simp [List.countP_cons, h] <;> omega

lemma length_filter_not {α : Type} (l : List α) (p : α → Prop) [DecidablePred p] :
    (l.filter fun a => decide (¬ p a)).length = l.length - l.countP (fun a => decide (p a)) := by
  rw [← List.countP_eq_length_filter]
  have h := countP_not_add_countP l (fun a => decide (p a))
  have h2 : l.countP (fun a => decide (¬ p a)) = l.countP (fun a => !(decide (p a))) := by
    apply List.countP_congr
    intro a _
    simp [decide_not]
  omega

lemma mark_sales_entries (st : DBState) (eid : String) :
    (mark_slack_event_processed st eid).sales_entries = st.sales_entries := by
  unfold mark_slack_event_processed
  split
  · rfl
  · split <;> rfl

lemma mark_message_sales (st : DBState) (eid : String) :
    (mark_slack_event_processed st eid).slack_message_sales = st.slack_message_sales := by
  unfold mark_slack_event_processed
  split
  · rfl
  · split <;> rfl

lemma mark_mem (st : DBState) {eid : String} (h : eid ≠ "") :
    eid ∈ (mark_slack_event_processed st eid).slack_processed_events := by
  unfold mark_slack_event_processed
  split
  · contradiction
  · split <;> simp_all

lemma mark_of_mem (st : DBState) {eid : String}
    (h : eid ∈ st.slack_processed_events) :
    mark_slack_event_processed st eid = st := by
  simp [mark_slack_event_processed, h]

lemma mark_count (st : DBState) {eid : String} (h : eid ≠ "")
    (h2 : eid ∉ st.slack_processed_events) :
    (mark_slack_event_processed st eid).slack_processed_events.count eid =
      st.slack_processed_events.count eid + 1 := by
  unfold mark_slack_event_processed
  rw [if_neg h, if_neg h2]
  simp [List.count_append]

lemma already_processed_true_iff (st : DBState) (eid : String) :
    slack_event_already_processed st eid = true ↔
      eid ≠ "" ∧ eid ∈ st.slack_processed_events := by
  unfold slack_event_already_processed
  split <;> simp_all

lemma already_processed_of_not_mem (st : DBState) {eid : String}
    (h : eid ∉ st.slack_processed_events) :
    slack_event_already_processed st eid = false := by
  unfold slack_event_already_processed
  split <;> simp_all

lemma expected_slack_signature_ne_empty (secret ts body : String) :
    expected_slack_signature secret ts body ≠ "" := by
  intro h
  have h2 := congrArg String.data h
  simp [expected_slack_signature, String.data_append] at h2

lemma parsePyInt_empty : parsePyInt "" = none := by decide

/-- Core characterization of `slack_verify_request` on a fresh timestamp with
a configured secret: acceptance is exactly equality with the computed
signature string. -/
lemma slack_verify_request_iff (cfg : SlackConfig) (ts sig body : String)
    (now ts_int : Int) (hsec : cfg.SLACK_SIGNING_SECRET ≠ "")
    (hp : parsePyInt ts = some ts_int) (hw : (now - ts_int).natAbs ≤ 300) :
    slack_verify_request cfg ts sig body now = true ↔
      sig = expected_slack_signature cfg.SLACK_SIGNING_SECRET ts body := by
  unfold slack_verify_request
  rw [if_neg hsec]
  by_cases hsig : sig = ""
  · subst hsig
    rw [if_pos (Or.inr rfl)]
    simp only [Bool.false_eq_true, false_iff]
    exact fun h => expected_slack_signature_ne_empty _ _ _ h.symm
  · have hts : ts ≠ "" := by
      rintro rfl
      rw [parsePyInt_empty] at hp
      exact Option.noConfusion hp
    rw [if_neg (by simp [hts, hsig])]
    simp only [hp]
    rw [if_neg (by omega)]
    simp [expected_slack_signature, decide_eq_true_iff]

/-- The verifier accepts its own computed signature string. -/
lemma slack_verify_request_expected (cfg : SlackConfig) (ts body : String)
    (now ts_int : Int) (hsec : cfg.SLACK_SIGNING_SECRET ≠ "")
    (hp : parsePyInt ts = some ts_int) (hw : (now - ts_int).natAbs ≤ 300) :
    slack_verify_request cfg ts
      (expected_slack_signature cfg.SLACK_SIGNING_SECRET ts body) body now = true :=
  (slack_verify_request_iff cfg ts _ body now ts_int hsec hp hw).mpr rfl

/-- `/slack/events` with a failing signature (outside the handshake)
answers 403 and leaves the state untouched. -/
lemma slack_events_bad_signature (cfg : SlackConfig) (st : DBState) (now : Int)
    (req : SlackRequest)
    (hty : (req.payload.getD {}).type ≠ "url_verification")
    (hver : slack_verify_request cfg req.timestamp_header req.signature_header
      req.body now = false) :
    slack_events cfg st now req = ({ status := 403, body := "invalid signature" }, st) := by
  unfold slack_events
  rw [if_neg hty, if_pos (by simp [hver])]

/-- `/slack/events` on an already-processed event id answers 200 and leaves
the state untouched. -/
lemma slack_events_short_circuit (cfg : SlackConfig) (st : DBState) (now : Int)
    (req : SlackRequest)
    (hty : (req.payload.getD {}).type ≠ "url_verification")
    (hver : slack_verify_request cfg req.timestamp_header req.signature_header
      req.body now = true)
    (hp : slack_event_already_processed st (req.payload.getD {}).event_id = true) :
    slack_events cfg st now req = ({ status := 200, body := "ok" }, st) := by
  unfold slack_events
  rw [if_neg hty, if_neg (by simp [hver]), if_pos hp]

/-- Every authenticated, non-handshake, not-yet-processed delivery ends by
marking the event processed, on a state whose processed set is unchanged and
whose two other tables have not grown. -/
lemma slack_events_shape (cfg : SlackConfig) (st : DBState) (now : Int)
    (req : SlackRequest)
    (hty : (req.payload.getD {}).type ≠ "url_verification")
    (hver : slack_verify_request cfg req.timestamp_header req.signature_header
      req.body now = true)
    (hp : slack_event_already_processed st (req.payload.getD {}).event_id = false) :
    ∃ st' : DBState,
      slack_events cfg st now req =
        ({ status := 200, body := "ok" },
          mark_slack_event_processed st' (req.payload.getD {}).event_id)
      ∧ st'.slack_processed_events = st.slack_processed_events
      ∧ st'.sales_entries.length ≤ st.sales_entries.length
      ∧ st'.slack_message_sales.length ≤ st.slack_message_sales.length := by
  simp only [slack_events]
  rw [if_neg hty, if_neg (by simp [hver]), if_neg (by simp [hp])]
  by_cases hch : cfg.SLACK_CHANNEL_ID ≠ "" ∧
      pyStrip (req.payload.getD {}).event.channel ≠ cfg.SLACK_CHANNEL_ID
  · rw [if_pos hch]
    exact ⟨st, rfl, rfl, le_refl _, le_refl _⟩
  · rw [if_neg hch]
    by_cases hsub1 : (req.payload.getD {}).event.subtype = some "message_changed"
    · rw [if_pos hsub1]
      exact ⟨st, rfl, rfl, le_refl _, le_refl _⟩
    · rw [if_neg hsub1]
      by_cases hsub2 : (req.payload.getD {}).event.subtype = some "message_deleted"
      · rw [if_pos hsub2]
        by_cases hd : resolved_deleted_ts (req.payload.getD {}).event = ""
        · rw [if_pos hd]
          exact ⟨st, rfl, rfl, le_refl _, le_refl _⟩
        · rw [if_neg hd]
          refine ⟨(remove_sale_from_slack st (pyStrip (req.payload.getD {}).event.channel)
            (resolved_deleted_ts (req.payload.getD {}).event)).2, rfl, ?_, ?_, ?_⟩ <;>
          · unfold remove_sale_from_slack
            split
            · simp
            · simp [List.length_filter_le]
      · rw [if_neg hsub2]
        exact ⟨st, rfl, rfl, le_refl _, le_refl _⟩

/-- The verifier accepts the concrete signed delivery data of the witnesses. -/
lemma verify_cfgW : slack_verify_request cfgW "100" sigW bodyW 100 = true :=
  slack_verify_request_expected cfgW "100" bodyW 100 100 (by decide) (by decide) (by decide)

lemma verify_reqPost : slack_verify_request cfgW reqPost.timestamp_header
    reqPost.signature_header reqPost.body 100 = true := verify_cfgW

lemma verify_reqDel : slack_verify_request cfgW reqDel.timestamp_header
    reqDel.signature_header reqDel.body 100 = true := verify_cfgW

lemma verify_reqOther : slack_verify_request cfgW reqOther.timestamp_header
    reqOther.signature_header reqOther.body 100 = true := verify_cfgW

/-! ## The claims -/

/-- C2: with a configured (non-empty) secret and a timestamp inside the
freshness window, `slack_verify_request` accepts exactly the string
`"v0=" ++ hex(HMAC-SHA256(secret, "v0:" ++ timestamp ++ ":" ++ body))`;
any provided signature differing from that string (in at least one
character) is rejected. -/
theorem slack_verify_request_accepts_only_expected_signature
    (cfg : SlackConfig) (ts sig body : String) (now ts_int : Int)
    (hsec : cfg.SLACK_SIGNING_SECRET ≠ "")
    (hp : parsePyInt ts = some ts_int)
    (hw : (now - ts_int).natAbs ≤ 300) :
    slack_verify_request cfg ts sig body now = true ↔
      sig = expected_slack_signature cfg.SLACK_SIGNING_SECRET ts body :=
  slack_verify_request_iff cfg ts sig body now ts_int hsec hp hw

/-- Witness for C2 at secret `"abc"`, timestamp `"100"`, de-facto arbitrary
provided signature `"zz"`, body `"body"`, `now = 100`. -/
theorem slack_verify_request_accepts_only_expected_signature_witness :
    ({ SLACK_SIGNING_SECRET := "abc" } : SlackConfig).SLACK_SIGNING_SECRET ≠ ""
    ∧ parsePyInt "100" = some 100
    ∧ ((100 : Int) - 100).natAbs ≤ 300
    ∧ (slack_verify_request { SLACK_SIGNING_SECRET := "abc" } "100" "zz" "body" 100 = true ↔
        "zz" = expected_slack_signature "abc" "100" "body") :=
  ⟨by decide, by decide, by decide,
    slack_verify_request_accepts_only_expected_signature
      { SLACK_SIGNING_SECRET := "abc" } "100" "zz" "body" 100 100
      (by decide) (by decide) (by decide)⟩

/-- C3: a request whose timestamp denotes a time more than 300 seconds away
from the current time is rejected, regardless of the provided signature and
of the configured secret. -/
theorem slack_verify_request_rejects_stale_timestamp
    (cfg : SlackConfig) (ts sig body : String) (now ts_int : Int)
    (hp : parsePyInt ts = some ts_int)
    (hfar : 300 < (now - ts_int).natAbs) :
    slack_verify_request cfg ts sig body now = false := by
  unfold slack_verify_request
  split
  · rfl
  · split
    · rfl
    · simp only [hp]
      rw [if_pos (by omega)]

/-- Witness for C3: timestamp `"0"` at `now = 1000` is rejected even under
the configured secret `"abc"`. -/
theorem slack_verify_request_rejects_stale_timestamp_witness :
    parsePyInt "0" = some 0
    ∧ 300 < ((1000 : Int) - 0).natAbs
    ∧ slack_verify_request { SLACK_SIGNING_SECRET := "abc" } "0" "zz" "body" 1000 = false :=
  ⟨by decide, by decide,
    slack_verify_request_rejects_stale_timestamp
      { SLACK_SIGNING_SECRET := "abc" } "0" "zz" "body" 1000 0 (by decide) (by decide)⟩

/-- C8: with an unset (empty) signing secret the verifier rejects every
request, whatever its headers, body and clock — it fails closed. -/
theorem empty_secret_rejects_every_request
    (cfg : SlackConfig) (ts sig body : String) (now : Int)
    (hsec : cfg.SLACK_SIGNING_SECRET = "") :
    slack_verify_request cfg ts sig body now = false := by
  unfold slack_verify_request
  rw [if_pos hsec]

/-- Witness for C8 at the default (empty) configuration. -/
theorem empty_secret_rejects_every_request_witness :
    ({} : SlackConfig).SLACK_SIGNING_SECRET = ""
    ∧ slack_verify_request {} "100" (expected_slack_signature "" "100" "b") "b" 100 = false :=
  ⟨by decide,
    empty_secret_rejects_every_request {} "100"
      (expected_slack_signature "" "100" "b") "b" 100 (by decide)⟩

/-- C9: the empty event identifier is never deduplicated: the
already-processed check answers `false` on `""` for every state, marking
`""` as processed changes nothing, and no marking operation ever adds `""`
to the processed-events set (its multiplicity is invariant, so a set that
never contained it never will). -/
theorem empty_event_id_never_deduplicated :
    (∀ st : DBState, slack_event_already_processed st "" = false)
    ∧ (∀ st : DBState, mark_slack_event_processed st "" = st)
    ∧ ∀ (st : DBState) (eid : String),
        (mark_slack_event_processed st eid).slack_processed_events.count "" =
          st.slack_processed_events.count "" := by
  refine ⟨fun st => by simp [slack_event_already_processed],
    fun st => by simp [mark_slack_event_processed], fun st eid => ?_⟩
  unfold mark_slack_event_processed
  split
  · rfl
  · split
    · rfl
    · rename_i hne _
      rw [List.count_append]
      have h0 : List.count "" [eid] = 0 := by
        rw [List.count_eq_zero]
        intro hmem
        rw [List.mem_singleton] at hmem
        exact hne hmem.symm
      omega

/-- C10: with a watched channel configured, an authenticated event (with a
non-empty id) from a different channel is answered 200 and its id is
recorded as processed, while the sales entries and the message-link tables
are untouched — the resulting state is exactly
`mark_slack_event_processed st event_id`. -/
theorem foreign_channel_event_only_marks_processed
    (cfg : SlackConfig) (st : DBState) (now : Int) (req : SlackRequest)
    (hty : (req.payload.getD {}).type ≠ "url_verification")
    (hver : slack_verify_request cfg req.timestamp_header req.signature_header
      req.body now = true)
    (heid : (req.payload.getD {}).event_id ≠ "")
    (hch : cfg.SLACK_CHANNEL_ID ≠ "")
    (hdiff : pyStrip (req.payload.getD {}).event.channel ≠ cfg.SLACK_CHANNEL_ID) :
    slack_events cfg st now req =
      ({ status := 200, body := "ok" },
        mark_slack_event_processed st (req.payload.getD {}).event_id)
    ∧ (mark_slack_event_processed st (req.payload.getD {}).event_id).sales_entries =
        st.sales_entries
    ∧ (mark_slack_event_processed st (req.payload.getD {}).event_id).slack_message_sales =
        st.slack_message_sales
    ∧ (req.payload.getD {}).event_id ∈
        (mark_slack_event_processed st (req.payload.getD {}).event_id).slack_processed_events := by
  refine ⟨?_, mark_sales_entries st _, mark_message_sales st _, mark_mem st heid⟩
  by_cases hp : slack_event_already_processed st (req.payload.getD {}).event_id = true
  · rw [slack_events_short_circuit cfg st now req hty hver hp,
      mark_of_mem st ((already_processed_true_iff st _).mp hp).2]
  · simp only [slack_events]
    rw [if_neg hty, if_neg (by simp [hver]), if_neg hp, if_pos ⟨hch, hdiff⟩]

/-- Witness for C10: the `E3` event from channel `C2` under watched channel
`C1`, against the empty database. -/
theorem foreign_channel_event_only_marks_processed_witness :
    (reqOther.payload.getD {}).type ≠ "url_verification"
    ∧ slack_verify_request cfgW reqOther.timestamp_header reqOther.signature_header
        reqOther.body 100 = true
    ∧ (reqOther.payload.getD {}).event_id ≠ ""
    ∧ cfgW.SLACK_CHANNEL_ID ≠ ""
    ∧ pyStrip (reqOther.payload.getD {}).event.channel ≠ cfgW.SLACK_CHANNEL_ID
    ∧ (slack_events cfgW {} 100 reqOther =
        ({ status := 200, body := "ok" },
          mark_slack_event_processed {} (reqOther.payload.getD {}).event_id)
      ∧ (mark_slack_event_processed {} (reqOther.payload.getD {}).event_id).sales_entries =
          ({} : DBState).sales_entries
      ∧ (mark_slack_event_processed {} (reqOther.payload.getD {}).event_id).slack_message_sales =
          ({} : DBState).slack_message_sales
      ∧ (reqOther.payload.getD {}).event_id ∈
          (mark_slack_event_processed {} (reqOther.payload.getD {}).event_id).slack_processed_events) :=
  ⟨by decide, verify_reqOther, by decide, by decide, by decide,
    foreign_channel_event_only_marks_processed cfgW {} 100 reqOther
      (by decide) verify_reqOther (by decide) (by decide) (by decide)⟩

/-- C7 counterexample: a `url_verification` handshake whose signature data
fails verification is nevertheless answered with HTTP 200 (the challenge is
echoed), not 401/403 — the handshake branch runs before any signature
check. -/
theorem failed_signature_handshake_gets_200 :
    slack_verify_request cfgW reqHandshake.timestamp_header
      reqHandshake.signature_header reqHandshake.body 1000 = false
    ∧ slack_events cfgW {} 1000 reqHandshake =
        ({ status := 200, body := "chal-123" }, {}) := by
  constructor
  · decide
  · decide

/-- C7 (amended): for every request that is not the `url_verification`
handshake, failing signature verification yields HTTP 403 and the returned
state is exactly the input state — no table, including the processed-events
set, is mutated. -/
theorem failed_signature_rejected_without_mutation
    (cfg : SlackConfig) (st : DBState) (now : Int) (req : SlackRequest)
    (hty : (req.payload.getD {}).type ≠ "url_verification")
    (hver : slack_verify_request cfg req.timestamp_header req.signature_header
      req.body now = false) :
    slack_events cfg st now req = ({ status := 403, body := "invalid signature" }, st) :=
  slack_events_bad_signature cfg st now req hty hver

/-- Witness for the amended C7: an event callback with a stale (hence
failing) signature against the two-entry database. -/
theorem failed_signature_rejected_without_mutation_witness :
    (reqBadSig.payload.getD {}).type ≠ "url_verification"
    ∧ slack_verify_request cfgW reqBadSig.timestamp_header reqBadSig.signature_header
        reqBadSig.body 1000 = false
    ∧ slack_events cfgW stTwo 1000 reqBadSig =
        ({ status := 403, body := "invalid signature" }, stTwo) :=
  ⟨by decide, by decide,
    failed_signature_rejected_without_mutation cfgW stTwo 1000 reqBadSig
      (by decide) (by decide)⟩

/-- C5 counterexample: an authenticated, fresh, top-level `message` post in
the watched channel `C1` by allow-listed user `U1` (mapped to rep
`"Tristan"`) with the keyword text creates no `sales_entries` row and no
`slack_message_sales` row: the handler only records the event id. The
version under verification creates sales solely through the manual flow. -/
theorem message_posted_creates_no_entry_cex :
    SLACK_USER_TO_REP cfgW = [("U1", "Tristan")]
    ∧ slack_verify_request cfgW reqPost.timestamp_header reqPost.signature_header
        reqPost.body 100 = true
    ∧ slack_events cfgW {} 100 reqPost =
        ({ status := 200, body := "ok" }, { slack_processed_events := ["E1"] })
    ∧ (slack_events_state cfgW {} 100 reqPost).sales_entries = []
    ∧ (slack_events_state cfgW {} 100 reqPost).slack_message_sales = [] := by
  have hv := verify_reqPost
  have h3 : slack_events cfgW {} 100 reqPost =
      ({ status := 200, body := "ok" }, { slack_processed_events := ["E1"] }) := by
    simp only [slack_events]
    rw [if_neg (by decide), if_neg (by simp [hv]), if_neg (by decide),
      if_neg (by decide), if_neg (by decide), if_neg (by decide)]
    decide
  exact ⟨by decide, hv, h3, by simp [slack_events_state, h3], by simp [slack_events_state, h3]⟩

/-- C5 (amended): handling any authenticated plain message-posted event
(no subtype) never creates a `sales_entries` or `slack_message_sales` row:
whatever the sender, text and channel, the handler answers 200 `"ok"` and
the only state change is recording the event id as processed. -/
theorem message_posted_never_creates_entry
    (cfg : SlackConfig) (st : DBState) (now : Int) (req : SlackRequest)
    (hty : (req.payload.getD {}).type ≠ "url_verification")
    (hver : slack_verify_request cfg req.timestamp_header req.signature_header
      req.body now = true)
    (hsub : (req.payload.getD {}).event.subtype = none) :
    (slack_events cfg st now req).1 = { status := 200, body := "ok" }
    ∧ (slack_events_state cfg st now req).sales_entries = st.sales_entries
    ∧ (slack_events_state cfg st now req).slack_message_sales = st.slack_message_sales
    ∧ (slack_events_state cfg st now req).slack_processed_events =
        (mark_slack_event_processed st (req.payload.getD {}).event_id).slack_processed_events := by
  by_cases hp : slack_event_already_processed st (req.payload.getD {}).event_id = true
  · have heq := slack_events_short_circuit cfg st now req hty hver hp
    have hmm := mark_of_mem st ((already_processed_true_iff st _).mp hp).2
    rw [slack_events_state, heq, hmm]
    exact ⟨rfl, rfl, rfl, rfl⟩
  · have heq : slack_events cfg st now req =
        ({ status := 200, body := "ok" },
          mark_slack_event_processed st (req.payload.getD {}).event_id) := by
      simp only [slack_events]
      rw [if_neg hty, if_neg (by simp [hver]), if_neg hp]
      by_cases hch : cfg.SLACK_CHANNEL_ID ≠ "" ∧
          pyStrip (req.payload.getD {}).event.channel ≠ cfg.SLACK_CHANNEL_ID
      · rw [if_pos hch]
      · rw [if_neg hch, if_neg (by simp [hsub]), if_neg (by simp [hsub])]
    rw [slack_events_state, heq]
    exact ⟨rfl, mark_sales_entries st _, mark_message_sales st _, rfl⟩

/-- Witness for the amended C5: the `E1` message post against the empty
database. -/
theorem message_posted_never_creates_entry_witness :
    (reqPost.payload.getD {}).type ≠ "url_verification"
    ∧ slack_verify_request cfgW reqPost.timestamp_header reqPost.signature_header
        reqPost.body 100 = true
    ∧ (reqPost.payload.getD {}).event.subtype = none
    ∧ ((slack_events cfgW {} 100 reqPost).1 = { status := 200, body := "ok" }
      ∧ (slack_events_state cfgW {} 100 reqPost).sales_entries = ({} : DBState).sales_entries
      ∧ (slack_events_state cfgW {} 100 reqPost).slack_message_sales =
          ({} : DBState).slack_message_sales
      ∧ (slack_events_state cfgW {} 100 reqPost).slack_processed_events =
          (mark_slack_event_processed {} (reqPost.payload.getD {}).event_id).slack_processed_events) :=
  ⟨by decide, verify_reqPost, by decide,
    message_posted_never_creates_entry cfgW {} 100 reqPost
      (by decide) verify_reqPost (by decide)⟩

/-- C6 counterexample: `delete_entry` on the entry linked by `link1`
removes the `sales_entries` row but leaves both link rows, so a
`slack_message_sales` row remains whose `entry_id` (1) matches no
remaining `sales_entries` row — deletion does not cascade to the link
table. -/
theorem delete_entry_leaves_dangling_link_cex :
    (delete_entry stTwo 1).sales_entries = [entry2]
    ∧ (delete_entry stTwo 1).slack_message_sales = [link1, link2]
    ∧ link1.entry_id = 1
    ∧ (delete_entry stTwo 1).sales_entries.countP
        (fun e => decide (e.id = link1.entry_id)) = 0 := by
  refine ⟨?_, ?_, ?_, ?_⟩ <;> decide


/-- What `remove_sale_from_slack` does, by cases on the link lookup: if a
link row for `(ch, mts)` exists, exactly the entries carrying its
`entry_id` and exactly the link rows keyed `(ch, mts)` are deleted (with
the corresponding length accounting); otherwise the state is returned
unchanged with result `false`. -/
lemma remove_sale_characterization (st : DBState) (ch mts : String) :
    match st.slack_message_sales.find? (fun r =>
        decide (r.channel_id = ch ∧ r.message_ts = mts)) with
    | some row =>
        (remove_sale_from_slack st ch mts).2.sales_entries =
          st.sales_entries.filter (fun e => decide (e.id ≠ row.entry_id))
        ∧ (remove_sale_from_slack st ch mts).2.slack_message_sales =
          st.slack_message_sales.filter (fun r =>
            decide (¬ (r.channel_id = ch ∧ r.message_ts = mts)))
        ∧ (remove_sale_from_slack st ch mts).2.sales_entries.length =
          st.sales_entries.length -
            st.sales_entries.countP (fun e => decide (e.id = row.entry_id))
        ∧ (remove_sale_from_slack st ch mts).2.slack_message_sales.length =
          st.slack_message_sales.length -
            st.slack_message_sales.countP (fun r =>
              decide (r.channel_id = ch ∧ r.message_ts = mts))
    | none => remove_sale_from_slack st ch mts = (false, st) := by
  unfold remove_sale_from_slack
  rcases hfind : st.slack_message_sales.find? (fun r =>
      decide (r.channel_id = ch ∧ r.message_ts = mts)) with _ | row
  · rw [hfind]
  · rw [hfind]
    have h1 := length_filter_not st.sales_entries (fun e => e.id = row.entry_id)
    have h2 := length_filter_not st.slack_message_sales
      (fun r => r.channel_id = ch ∧ r.message_ts = mts)
    exact ⟨rfl, rfl, h1, h2⟩

/-- C6 (amended): the link row is created together with the business record
it maps to when the Slack post succeeds (the new entry carries the Slack
coordinates and the link keyed by them points at its id);
`remove_sale_from_slack` deletes the linked record and the link row
together in one transaction; but `delete_entry` never touches the link
table, so deleting an entry directly can leave a link row whose `entry_id`
matches no remaining record. -/
theorem link_creation_and_deletion_lifecycle
    (st : DBState) (ch mts ch2 mts2 : String) (eid : Nat)
    (week_start rep : String) (qty : Int) (sid : Option Nat) (store_name today : String)
    (habs : (st.slack_message_sales.any fun r =>
        decide (r.channel_id = ch ∧ r.message_ts = mts)) = false) :
    ({ channel_id := ch, message_ts := mts, entry_id := st.next_entry_id,
       rep := rep, qty := qty } : SlackMessageSale)
      ∈ (add_entry_insert st week_start rep qty sid store_name today
          (some (ch, mts))).1.slack_message_sales
    ∧ ({ id := st.next_entry_id, week_start := week_start, rep := rep, qty := qty,
         created_at := today, note := store_name, store_id := sid,
         slack_channel := some ch, slack_ts := some mts } : SalesEntry)
      ∈ (add_entry_insert st week_start rep qty sid store_name today
          (some (ch, mts))).1.sales_entries
    ∧ (match st.slack_message_sales.find? (fun r =>
          decide (r.channel_id = ch2 ∧ r.message_ts = mts2)) with
       | some row =>
           (remove_sale_from_slack st ch2 mts2).2.sales_entries =
             st.sales_entries.filter (fun e => decide (e.id ≠ row.entry_id))
           ∧ (remove_sale_from_slack st ch2 mts2).2.slack_message_sales =
             st.slack_message_sales.filter (fun r =>
               decide (¬ (r.channel_id = ch2 ∧ r.message_ts = mts2)))
           ∧ (remove_sale_from_slack st ch2 mts2).2.sales_entries.length =
             st.sales_entries.length -
               st.sales_entries.countP (fun e => decide (e.id = row.entry_id))
           ∧ (remove_sale_from_slack st ch2 mts2).2.slack_message_sales.length =
             st.slack_message_sales.length -
               st.slack_message_sales.countP (fun r =>
                 decide (r.channel_id = ch2 ∧ r.message_ts = mts2))
       | none => remove_sale_from_slack st ch2 mts2 = (false, st))
    ∧ (delete_entry st eid).slack_message_sales = st.slack_message_sales := by
  refine ⟨?_, ?_, remove_sale_characterization st ch2 mts2, rfl⟩
  · have habs2 : ¬ ∃ x ∈ st.slack_message_sales, x.channel_id = ch ∧ x.message_ts = mts := by
      simpa using habs
    simp [add_entry_insert, habs2]
  · simp only [add_entry_insert]
    split <;>
    · refine List.mem_map.mpr ⟨_, List.mem_append_right _ (List.mem_singleton.mpr rfl), ?_⟩
      simp

/-- Witness for the amended C6 on the two-entry database: the fresh key
`("C1", "300.3")` for creation, the linked key `("C1", "100.1")` for
removal, and direct deletion of entry 1. -/
theorem link_creation_and_deletion_lifecycle_witness :
    (stTwo.slack_message_sales.any fun r =>
        decide (r.channel_id = "C1" ∧ r.message_ts = "300.3")) = false
    ∧ (({ channel_id := "C1", message_ts := "300.3", entry_id := stTwo.next_entry_id,
          rep := "Sohaib", qty := 2 } : SlackMessageSale)
        ∈ (add_entry_insert stTwo "2025-01-06" "Sohaib" 2 none "" "2025-01-08"
            (some ("C1", "300.3"))).1.slack_message_sales
      ∧ ({ id := stTwo.next_entry_id, week_start := "2025-01-06", rep := "Sohaib", qty := 2,
           created_at := "2025-01-08", note := "", store_id := none,
           slack_channel := some "C1", slack_ts := some "300.3" } : SalesEntry)
        ∈ (add_entry_insert stTwo "2025-01-06" "Sohaib" 2 none "" "2025-01-08"
            (some ("C1", "300.3"))).1.sales_entries
      ∧ (match stTwo.slack_message_sales.find? (fun r =>
            decide (r.channel_id = "C1" ∧ r.message_ts = "100.1")) with
         | some row =>
             (remove_sale_from_slack stTwo "C1" "100.1").2.sales_entries =
               stTwo.sales_entries.filter (fun e => decide (e.id ≠ row.entry_id))
             ∧ (remove_sale_from_slack stTwo "C1" "100.1").2.slack_message_sales =
               stTwo.slack_message_sales.filter (fun r =>
                 decide (¬ (r.channel_id = "C1" ∧ r.message_ts = "100.1")))
             ∧ (remove_sale_from_slack stTwo "C1" "100.1").2.sales_entries.length =
               stTwo.sales_entries.length -
                 stTwo.sales_entries.countP (fun e => decide (e.id = row.entry_id))
             ∧ (remove_sale_from_slack stTwo "C1" "100.1").2.slack_message_sales.length =
               stTwo.slack_message_sales.length -
                 stTwo.slack_message_sales.countP (fun r =>
                   decide (r.channel_id = "C1" ∧ r.message_ts = "100.1"))
         | none => remove_sale_from_slack stTwo "C1" "100.1" = (false, stTwo))
      ∧ (delete_entry stTwo 1).slack_message_sales = stTwo.slack_message_sales) :=
  ⟨by decide,
    link_creation_and_deletion_lifecycle stTwo "C1" "300.3" "C1" "100.1" 1
      "2025-01-06" "Sohaib" 2 none "" "2025-01-08" (by decide)⟩

/-- C4: an authenticated, not-yet-processed `message_deleted` event for the
watched channel resolves the deleted message timestamp and hands the pair
to `remove_sale_from_slack`, then marks the event processed and answers
200; the handled state's two tables are exactly the removal's result, and
the removal deletes exactly the linked sales entry and exactly the one
link row when the link exists, and changes nothing when it does not. -/
theorem message_deleted_removes_exactly_linked_sale
    (cfg : SlackConfig) (st : DBState) (now : Int) (req : SlackRequest)
    (hty : (req.payload.getD {}).type ≠ "url_verification")
    (hver : slack_verify_request cfg req.timestamp_header req.signature_header
      req.body now = true)
    (hnp : slack_event_already_processed st (req.payload.getD {}).event_id = false)
    (hch : ¬ (cfg.SLACK_CHANNEL_ID ≠ "" ∧
      pyStrip (req.payload.getD {}).event.channel ≠ cfg.SLACK_CHANNEL_ID))
    (hsub : (req.payload.getD {}).event.subtype = some "message_deleted")
    (hdel : resolved_deleted_ts (req.payload.getD {}).event ≠ "") :
    slack_events cfg st now req =
      ({ status := 200, body := "ok" },
        mark_slack_event_processed
          (remove_sale_from_slack st (pyStrip (req.payload.getD {}).event.channel)
            (resolved_deleted_ts (req.payload.getD {}).event)).2
          (req.payload.getD {}).event_id)
    ∧ (slack_events_state cfg st now req).sales_entries =
        (remove_sale_from_slack st (pyStrip (req.payload.getD {}).event.channel)
          (resolved_deleted_ts (req.payload.getD {}).event)).2.sales_entries
    ∧ (slack_events_state cfg st now req).slack_message_sales =
        (remove_sale_from_slack st (pyStrip (req.payload.getD {}).event.channel)
          (resolved_deleted_ts (req.payload.getD {}).event)).2.slack_message_sales
    ∧ (match st.slack_message_sales.find? (fun r =>
          decide (r.channel_id = pyStrip (req.payload.getD {}).event.channel ∧
            r.message_ts = resolved_deleted_ts (req.payload.getD {}).event)) with
       | some row =>
           (remove_sale_from_slack st (pyStrip (req.payload.getD {}).event.channel)
             (resolved_deleted_ts (req.payload.getD {}).event)).2.sales_entries =
             st.sales_entries.filter (fun e => decide (e.id ≠ row.entry_id))
           ∧ (remove_sale_from_slack st (pyStrip (req.payload.getD {}).event.channel)
             (resolved_deleted_ts (req.payload.getD {}).event)).2.slack_message_sales =
             st.slack_message_sales.filter (fun r =>
               decide (¬ (r.channel_id = pyStrip (req.payload.getD {}).event.channel ∧
                 r.message_ts = resolved_deleted_ts (req.payload.getD {}).event)))
           ∧ (remove_sale_from_slack st (pyStrip (req.payload.getD {}).event.channel)
             (resolved_deleted_ts (req.payload.getD {}).event)).2.sales_entries.length =
             st.sales_entries.length -
               st.sales_entries.countP (fun e => decide (e.id = row.entry_id))
           ∧ (remove_sale_from_slack st (pyStrip (req.payload.getD {}).event.channel)
             (resolved_deleted_ts (req.payload.getD {}).event)).2.slack_message_sales.length =
             st.slack_message_sales.length -
               st.slack_message_sales.countP (fun r =>
                 decide (r.channel_id = pyStrip (req.payload.getD {}).event.channel ∧
                   r.message_ts = resolved_deleted_ts (req.payload.getD {}).event))
       | none =>
           remove_sale_from_slack st (pyStrip (req.payload.getD {}).event.channel)
             (resolved_deleted_ts (req.payload.getD {}).event) = (false, st)) := by
  have heq : slack_events cfg st now req =
      ({ status := 200, body := "ok" },
        mark_slack_event_processed
          (remove_sale_from_slack st (pyStrip (req.payload.getD {}).event.channel)
            (resolved_deleted_ts (req.payload.getD {}).event)).2
          (req.payload.getD {}).event_id) := by
    simp only [slack_events]
    rw [if_neg hty, if_neg (by simp [hver]), if_neg (by simp [hnp]), if_neg hch,
      if_neg (by rw [hsub]; decide), if_pos hsub, if_neg hdel]
  refine ⟨heq, ?_, ?_,
    remove_sale_characterization st (pyStrip (req.payload.getD {}).event.channel)
      (resolved_deleted_ts (req.payload.getD {}).event)⟩
  · rw [slack_events_state, heq]
    exact mark_sales_entries _ _
  · rw [slack_events_state, heq]
    exact mark_message_sales _ _

/-- Witness for C4: deleting Slack message `("C1", "100.1")` (event `E2`)
against the two-entry database removes entry 1 and `link1` and leaves
entry 2 and `link2` in place. -/
theorem message_deleted_removes_exactly_linked_sale_witness :
    (reqDel.payload.getD {}).type ≠ "url_verification"
    ∧ slack_verify_request cfgW reqDel.timestamp_header reqDel.signature_header
        reqDel.body 100 = true
    ∧ slack_event_already_processed stTwo (reqDel.payload.getD {}).event_id = false
    ∧ ¬ (cfgW.SLACK_CHANNEL_ID ≠ "" ∧
        pyStrip (reqDel.payload.getD {}).event.channel ≠ cfgW.SLACK_CHANNEL_ID)
    ∧ (reqDel.payload.getD {}).event.subtype = some "message_deleted"
    ∧ resolved_deleted_ts (reqDel.payload.getD {}).event ≠ ""
    ∧ (slack_events cfgW stTwo 100 reqDel =
        ({ status := 200, body := "ok" },
          mark_slack_event_processed
            (remove_sale_from_slack stTwo (pyStrip (reqDel.payload.getD {}).event.channel)
              (resolved_deleted_ts (reqDel.payload.getD {}).event)).2
            (reqDel.payload.getD {}).event_id)
      ∧ (slack_events_state cfgW stTwo 100 reqDel).sales_entries =
          (remove_sale_from_slack stTwo (pyStrip (reqDel.payload.getD {}).event.channel)
            (resolved_deleted_ts (reqDel.payload.getD {}).event)).2.sales_entries
      ∧ (slack_events_state cfgW stTwo 100 reqDel).slack_message_sales =
          (remove_sale_from_slack stTwo (pyStrip (reqDel.payload.getD {}).event.channel)
            (resolved_deleted_ts (reqDel.payload.getD {}).event)).2.slack_message_sales
      ∧ (match stTwo.slack_message_sales.find? (fun r =>
            decide (r.channel_id = pyStrip (reqDel.payload.getD {}).event.channel ∧
              r.message_ts = resolved_deleted_ts (reqDel.payload.getD {}).event)) with
         | some row =>
             (remove_sale_from_slack stTwo (pyStrip (reqDel.payload.getD {}).event.channel)
               (resolved_deleted_ts (reqDel.payload.getD {}).event)).2.sales_entries =
               stTwo.sales_entries.filter (fun e => decide (e.id ≠ row.entry_id))
             ∧ (remove_sale_from_slack stTwo (pyStrip (reqDel.payload.getD {}).event.channel)
               (resolved_deleted_ts (reqDel.payload.getD {}).event)).2.slack_message_sales =
               stTwo.slack_message_sales.filter (fun r =>
                 decide (¬ (r.channel_id = pyStrip (reqDel.payload.getD {}).event.channel ∧
                   r.message_ts = resolved_deleted_ts (reqDel.payload.getD {}).event)))
             ∧ (remove_sale_from_slack stTwo (pyStrip (reqDel.payload.getD {}).event.channel)
               (resolved_deleted_ts (reqDel.payload.getD {}).event)).2.sales_entries.length =
               stTwo.sales_entries.length -
                 stTwo.sales_entries.countP (fun e => decide (e.id = row.entry_id))
             ∧ (remove_sale_from_slack stTwo (pyStrip (reqDel.payload.getD {}).event.channel)
               (resolved_deleted_ts (reqDel.payload.getD {}).event)).2.slack_message_sales.length =
               stTwo.slack_message_sales.length -
                 stTwo.slack_message_sales.countP (fun r =>
                   decide (r.channel_id = pyStrip (reqDel.payload.getD {}).event.channel ∧
                     r.message_ts = resolved_deleted_ts (reqDel.payload.getD {}).event))
         | none =>
             remove_sale_from_slack stTwo (pyStrip (reqDel.payload.getD {}).event.channel)
               (resolved_deleted_ts (reqDel.payload.getD {}).event) = (false, stTwo))) :=
  ⟨by decide, verify_reqDel, by decide, by decide, by decide, by decide,
    message_deleted_removes_exactly_linked_sale cfgW stTwo 100 reqDel
      (by decide) verify_reqDel (by decide) (by decide) (by decide) (by decide)⟩

/-- C1: the webhook handler is idempotent in a non-empty event id. For an
authenticated event delivery whose id is not yet in the processed set:
the delivery answers 200 `"ok"`; redelivering the identical request to the
resulting state answers 200 `"ok"` and returns that state unchanged (the
short-circuit); any `N + 1` consecutive deliveries of the identical
request produce exactly the state of the first; the processed set then
holds the id exactly once; and neither the sales entries nor the
message-link table has grown, so at most one record/link row can exist for
the event's message. -/
theorem slack_events_idempotent_by_event_id
    (cfg : SlackConfig) (st : DBState) (now : Int) (req : SlackRequest) (N : Nat)
    (hty : (req.payload.getD {}).type ≠ "url_verification")
    (hver : slack_verify_request cfg req.timestamp_header req.signature_header
      req.body now = true)
    (heid : (req.payload.getD {}).event_id ≠ "")
    (hfresh : st.slack_processed_events.count (req.payload.getD {}).event_id = 0) :
    slack_events cfg st now req =
      ({ status := 200, body := "ok" }, slack_events_state cfg st now req)
    ∧ slack_events cfg (slack_events_state cfg st now req) now req =
        ({ status := 200, body := "ok" }, slack_events_state cfg st now req)
    ∧ deliverN cfg now req (N + 1) st = slack_events_state cfg st now req
    ∧ (slack_events_state cfg st now req).slack_processed_events.count
        (req.payload.getD {}).event_id = 1
    ∧ (slack_events_state cfg st now req).sales_entries.length ≤ st.sales_entries.length
    ∧ (slack_events_state cfg st now req).slack_message_sales.length ≤
        st.slack_message_sales.length := by
  have hnotmem : (req.payload.getD {}).event_id ∉ st.slack_processed_events :=
    List.count_eq_zero.mp hfresh
  have hnp := already_processed_of_not_mem st hnotmem
  obtain ⟨st', heq, hproc, hlen1, hlen2⟩ := slack_events_shape cfg st now req hty hver hnp
  have hstate : slack_events_state cfg st now req =
      mark_slack_event_processed st' (req.payload.getD {}).event_id := by
    rw [slack_events_state, heq]
  have hmem1 : (req.payload.getD {}).event_id ∈
      (slack_events_state cfg st now req).slack_processed_events := by
    rw [hstate]
    exact mark_mem st' heid
  have hsc : slack_events cfg (slack_events_state cfg st now req) now req =
      ({ status := 200, body := "ok" }, slack_events_state cfg st now req) :=
    slack_events_short_circuit cfg _ now req hty hver
      ((already_processed_true_iff _ _).mpr ⟨heid, hmem1⟩)
  have hstep : slack_events_state cfg (slack_events_state cfg st now req) now req =
      slack_events_state cfg st now req := by
    rw [slack_events_state, hsc]
  have hfix : ∀ n : Nat, deliverN cfg now req n (slack_events_state cfg st now req) =
      slack_events_state cfg st now req := by
    intro n
    induction n with
    | zero => rfl
    | succ k ih =>
      show deliverN cfg now req k
        (slack_events_state cfg (slack_events_state cfg st now req) now req) =
        slack_events_state cfg st now req
      rw [hstep]
      exact ih
  have hnm' : (req.payload.getD {}).event_id ∉ st'.slack_processed_events := by
    rw [hproc]
    exact hnotmem
  refine ⟨by rw [heq, hstate], hsc, ?_, ?_, ?_, ?_⟩
  · show deliverN cfg now req N (slack_events_state cfg st now req) =
      slack_events_state cfg st now req
    exact hfix N
  · rw [hstate, mark_count st' heid hnm']
    have : st'.slack_processed_events.count (req.payload.getD {}).event_id = 0 := by
      rw [hproc]
      exact hfresh
    omega
  · rw [hstate, mark_sales_entries]
    exact hlen1
  · rw [hstate, mark_message_sales]
    exact hlen2

/-- Witness for C1: delivering the `E1` message event twice (`N + 1 = 2`)
to the empty database. -/
theorem slack_events_idempotent_by_event_id_witness :
    (reqPost.payload.getD {}).type ≠ "url_verification"
    ∧ slack_verify_request cfgW reqPost.timestamp_header reqPost.signature_header
        reqPost.body 100 = true
    ∧ (reqPost.payload.getD {}).event_id ≠ ""
    ∧ ({} : DBState).slack_processed_events.count (reqPost.payload.getD {}).event_id = 0
    ∧ (slack_events cfgW {} 100 reqPost =
        ({ status := 200, body := "ok" }, slack_events_state cfgW {} 100 reqPost)
      ∧ slack_events cfgW (slack_events_state cfgW {} 100 reqPost) 100 reqPost =
          ({ status := 200, body := "ok" }, slack_events_state cfgW {} 100 reqPost)
      ∧ deliverN cfgW 100 reqPost 2 {} = slack_events_state cfgW {} 100 reqPost
      ∧ (slack_events_state cfgW {} 100 reqPost).slack_processed_events.count
          (reqPost.payload.getD {}).event_id = 1
      ∧ (slack_events_state cfgW {} 100 reqPost).sales_entries.length ≤
          ({} : DBState).sales_entries.length
      ∧ (slack_events_state cfgW {} 100 reqPost).slack_message_sales.length ≤
          ({} : DBState).slack_message_sales.length) :=
  ⟨by decide, verify_reqPost, by decide, by decide,
    slack_events_idempotent_by_event_id cfgW {} 100 reqPost 1
      (by decide) verify_reqPost (by decide) (by decide)⟩
